import Mathlib

/-!
Verification of the chatkit-starter repository.

The embedding models:
- `src/app/api/create-session/route.ts` (namespace `Route`): the session-creation
  endpoint, its cookie handling and upstream error extraction;
- `src/unnamed/part_000` (namespace `AltRoute`): the alternative route file's
  `getNestedMessage` / `extractUpstreamError`;
- `src/unnamed/part_003` (namespace `Panel`): the `ChatKitPanel` component's
  `onClientTool`, `getClientSecret`, `extractErrorDetail` and render logic.

JavaScript values flowing through these functions are JSON values (they come
from `JSON.parse` / request bodies), modelled by the inductive `Json`.
`undefined` (the result of a missing property access) is modelled as
`Option.none` at use sites, and JS truthiness is modelled explicitly.
-/

/-- Claim-independent model of a JSON value (the values produced by
JSON.parse and passed around by the routes and the panel). -/
inductive Json where
  | null
  | bool (b : Bool)
  | num (n : Int)
  | str (s : String)
  | arr (elems : List Json)
  | obj (fields : List (String × Json))

/-- First binding of a key in a field list (JS objects have unique keys,
so first-match lookup models JS property access on parsed JSON). -/
def getField (fields : List (String × Json)) (key : String) : Option Json :=
  (fields.find? (fun p => p.1 == key)).map (fun p => p.2)

/-- JS property access `value[key]`: `undefined` (`none`) unless the value is
an object that has the key.  Arrays have no string keys named
"error", "message" or "details", so returning `none` on arrays is faithful
for every key these functions read. -/
def Json.get : Json → String → Option Json
  | .obj fields, key => getField fields key
  | _, _ => none

/-- JS `typeof v === "object" && v !== null` (arrays are objects in JS). -/
def Json.isRecord : Json → Bool
  | .obj _ => true
  | .arr _ => true
  | _ => false

/-- JS `key in v` for the values reaching these functions. -/
def Json.hasKey (j : Json) (key : String) : Bool :=
  (j.get key).isSome

/-- JS truthiness of a JSON value (NaN does not arise from JSON.parse). -/
def jsTruthy : Json → Bool
  | .null => false
  | .bool b => b
  | .num n => n != 0
  | .str s => s != ""
  | .arr _ => true
  | .obj _ => true

/-- JS truthiness of a `string | null | undefined` value. -/
def strTruthy : Option String → Bool
  | none => false
  | some s => s != ""

/-- JS truthiness of a possibly-undefined JSON value. -/
def jsOptTruthy : Option Json → Bool
  | none => false
  | some v => jsTruthy v

/-- JS optional chaining `v?.key`: `undefined` when `v` is `null`/`undefined`,
otherwise property access. -/
def jsOptGet : Option Json → String → Option Json
  | none, _ => none
  | some .null, _ => none
  | some j, key => j.get key

/-- JS nullish coalescing `a ?? b` on possibly-undefined JSON values. -/
def jsCoalesce (a b : Option Json) : Option Json :=
  match a with
  | none => b
  | some .null => b
  | some v => some v

/-- JS `a ?? null` on a possibly-undefined JSON value. -/
def jsCoalesceNull (a : Option Json) : Json :=
  match a with
  | none => .null
  | some .null => .null
  | some v => v

/-- The pattern `if (typeof v === "string") return v;` on a possibly-undefined
value: the string when the value is a string, otherwise nothing. -/
def asStringOpt : Option Json → Option String
  | some (.str s) => some s
  | _ => none

/-- Early-return chaining: the first alternative that produced a string. -/
def firstOf : Option String → Option String → Option String
  | some s, _ => some s
  | none, b => b

namespace Route

/-- The block `if (e && typeof e === "object" && "message" in e) { const msg =
e.message; if (typeof msg === "string") return msg; }` from
`extractUpstreamError` in route.ts, used for both `error` and the nested
`details.error`. -/
def recordMessageIn : Option Json → Option String
  | some e => if e.isRecord && e.hasKey "message" then asStringOpt (e.get "message") else none
  | none => none

/-- The block of `extractUpstreamError` in route.ts that inspects
`details.error` (guarded by `details && typeof details === "object" &&
"error" in details`). -/
def nestedDetailsError : Option Json → Option String
  | some d =>
    if d.isRecord && d.hasKey "error" then
      firstOf (asStringOpt (d.get "error")) (recordMessageIn (d.get "error"))
    else none
  | none => none

/-- extractUpstreamError from src/app/api/create-session/route.ts: the
`if (!payload) return null` guard followed by the cascade of early returns. -/
def extractUpstreamError (payload : Json) : Option String :=
  if !(jsTruthy payload) then none
  else
    firstOf (asStringOpt (payload.get "error"))
      (firstOf (recordMessageIn (payload.get "error"))
        (firstOf (asStringOpt (payload.get "details"))
          (firstOf (nestedDetailsError (payload.get "details"))
            (asStringOpt (payload.get "message")))))

end Route

namespace AltRoute

/-- The block `if (isRecord(x)) { const m = x["message"]; if (typeof m ===
"string") return m; }` from part_000 (no `in` check, unlike route.ts). -/
def recordMessage : Option Json → Option String
  | some j => if j.isRecord then asStringOpt (j.get "message") else none
  | none => none

/-- getNestedMessage from src/unnamed/part_000. -/
def getNestedMessage (o : Json) : Option String :=
  if !o.isRecord then none
  else
    firstOf (recordMessage (o.get "error"))
      (firstOf (asStringOpt (o.get "message"))
        (match o.get "details" with
         | some d =>
           if d.isRecord then
             firstOf (asStringOpt (d.get "error")) (recordMessage (d.get "error"))
           else none
         | none => none))

/-- extractUpstreamError from src/unnamed/part_000: `if (msg) return msg`
is a truthiness check, so an empty-string nested message falls through to the
top-level string `error` field. -/
def extractUpstreamError (payload : Json) : Option String :=
  let fallback : Option String :=
    if payload.isRecord then asStringOpt (payload.get "error") else none
  match getNestedMessage payload with
  | some s => if s != "" then some s else fallback
  | none => fallback

end AltRoute

/-! JS string builtins used by the cookie helpers: `String.prototype.split`
with a one-character separator, `Array.prototype.join`,
`String.prototype.trim`, and `encodeURIComponent`. -/

/-- JS `str.split(sep)` for a one-character separator, on the character
list: `"" → [""]`, `";" → ["",""]`, etc. -/
def splitCharList (sep : Char) : List Char → List (List Char)
  | [] => [[]]
  | c :: cs =>
    if c = sep then [] :: splitCharList sep cs
    else
      match splitCharList sep cs with
      | [] => [[c]]
      | x :: xs => (c :: x) :: xs

/-- JS `str.split(sep)` for a one-character separator. -/
def jsSplit (s : String) (sep : Char) : List String :=
  (splitCharList sep s.data).map String.mk

/-- JS `array.join(sep)`. -/
def jsJoin (sep : String) : List String → String
  | [] => ""
  | [x] => x
  | x :: xs => x ++ sep ++ jsJoin sep xs

/-- The WhiteSpace and LineTerminator character set of JS, used by both
`String.prototype.trim` and the regular-expression class `\s`. -/
def isJsWhitespace (c : Char) : Bool :=
  c.toNat = 9 || c.toNat = 10 || c.toNat = 11 || c.toNat = 12 || c.toNat = 13 ||
  c.toNat = 32 || c.toNat = 160 || c.toNat = 5760 ||
  (8192 ≤ c.toNat && c.toNat ≤ 8202) || c.toNat = 8232 || c.toNat = 8233 ||
  c.toNat = 8239 || c.toNat = 8287 || c.toNat = 12288 || c.toNat = 65279

/-- JS `str.trim()`. -/
def jsTrim (s : String) : String :=
  String.mk (((s.data.dropWhile isJsWhitespace).reverse.dropWhile isJsWhitespace).reverse)

/-- The characters `encodeURIComponent` leaves unencoded:
`A-Z a-z 0-9 - _ . ! ~ * ' ( )`. -/
def isUriUnreserved (c : Char) : Bool :=
  (65 ≤ c.toNat && c.toNat ≤ 90) || (97 ≤ c.toNat && c.toNat ≤ 122) ||
  (48 ≤ c.toNat && c.toNat ≤ 57) ||
  c.toNat = 45 || c.toNat = 95 || c.toNat = 46 || c.toNat = 33 ||
  c.toNat = 126 || c.toNat = 42 || c.toNat = 39 || c.toNat = 40 || c.toNat = 41

/-- UTF-8 encoding of a character, as byte values. -/
def utf8Bytes (c : Char) : List Nat :=
  let n := c.toNat
  if n < 128 then [n]
  else if n < 2048 then [192 + n / 64, 128 + n % 64]
  else if n < 65536 then [224 + n / 4096, 128 + (n / 64) % 64, 128 + n % 64]
  else [240 + n / 262144, 128 + (n / 4096) % 64, 128 + (n / 64) % 64, 128 + n % 64]

/-- Uppercase hexadecimal digit. -/
def hexDigit (n : Nat) : Char :=
  if n < 10 then Char.ofNat (48 + n) else Char.ofNat (55 + n)

/-- Percent-encoding of a byte sequence, as characters. -/
def percentChars : List Nat → List Char
  | [] => []
  | b :: bs => '%' :: hexDigit (b / 16) :: hexDigit (b % 16) :: percentChars bs

/-- Encoding of one character under `encodeURIComponent`. -/
def encCharL (c : Char) : List Char :=
  if isUriUnreserved c then [c] else percentChars (utf8Bytes c)

/-- Character-list worker of `encodeURIComponent`. -/
def encodeDataL : List Char → List Char
  | [] => []
  | c :: cs => encCharL c ++ encodeDataL cs

/-- JS `encodeURIComponent`. -/
def encodeURIComponent (s : String) : String :=
  String.mk (encodeDataL s.data)

namespace Route

/-- SESSION_COOKIE_NAME from route.ts. -/
def SESSION_COOKIE_NAME : String := "chatkit_session_id"

/-- SESSION_COOKIE_MAX_AGE from route.ts (30 days in seconds). -/
def SESSION_COOKIE_MAX_AGE : Nat := 60 * 60 * 24 * 30

/-- The `for (const part of header.split(";"))` loop of getCookieValue. -/
def cookieScan (name : String) : List String → Option String
  | [] => none
  | part :: parts =>
    match jsSplit part '=' with
    | [] => cookieScan name parts
    | rawName :: rest =>
      if rawName = "" || rest.isEmpty then cookieScan name parts
      else if jsTrim rawName = name then some (jsTrim (jsJoin "=" rest))
      else cookieScan name parts

/-- getCookieValue from route.ts (`if (!header) return null` is a
truthiness check, so an empty header also yields null). -/
def getCookieValue (header : Option String) (name : String) : Option String :=
  match header with
  | none => none
  | some h => if h = "" then none else cookieScan name (jsSplit h ';')

/-- serializeSessionCookie from route.ts; `prod` models
`process.env.NODE_ENV === "production"`. -/
def serializeSessionCookie (value : String) (prod : Bool) : String :=
  jsJoin "; "
    ([SESSION_COOKIE_NAME ++ "=" ++ encodeURIComponent value,
      "Path=/",
      "Max-Age=" ++ toString SESSION_COOKIE_MAX_AGE,
      "HttpOnly",
      "SameSite=Lax"] ++ (if prod then ["Secure"] else []))

/-- resolveUserId from route.ts; `generated` models the value produced by
`crypto.randomUUID()`.  `if (existing) return ...` is a truthiness check,
so an empty cookie value also triggers generation. -/
def resolveUserId (cookieHeader : Option String) (generated : String) (prod : Bool) :
    String × Option String :=
  match getCookieValue cookieHeader SESSION_COOKIE_NAME with
  | some existing =>
    if existing != "" then (existing, none)
    else (generated, some (serializeSessionCookie generated prod))
  | none => (generated, some (serializeSessionCookie generated prod))

/-- Environment of the POST handler: `process.env.OPENAI_API_KEY` (a missing
or empty value is falsy) and `process.env.NODE_ENV === "production"`. -/
structure PostEnv where
  openaiApiKey : Option String
  nodeEnvProduction : Bool

/-- The parts of the incoming request the POST handler reads: the `cookie`
header (null when absent) and the result of `safeParseJson` on the body
(`none` models both an empty body and a JSON parse failure, which
safeParseJson maps to null). -/
structure PostRequest where
  cookieHeader : Option String
  parsedBody : Option Json

/-- Behaviour of the single upstream `fetch`: either the network call fails
(the promise rejects, landing in the POST handler's catch block), or a
response arrives with the given `ok`/`status`/`statusText`, whose body parses
to `bodyJson` (`none` when the body is not valid JSON, which
`.json().catch(() => ({}))` maps to the empty object). -/
inductive UpstreamOutcome where
  | netFailure
  | response (ok : Bool) (status : Nat) (statusText : String) (bodyJson : Option Json)

/-- The JSON body the handler sends upstream (the fields that vary). -/
structure UpstreamRequest where
  user : String
  workflow : Json
  fileUploadEnabled : Json

/-- A response produced by the `json` helper: HTTP status, the JSON body's
fields in order, and the appended `Set-Cookie` header when present. -/
structure ResponseModel where
  status : Nat
  bodyFields : List (String × Json)
  setCookie : Option String

/-- The json helper from route.ts: `if (sessionCookie)
resHeaders.append("Set-Cookie", sessionCookie)` is a truthiness check. -/
def jsonResp (payload : List (String × Json)) (status : Nat)
    (sessionCookie : Option String) : ResponseModel :=
  { status := status,
    bodyFields := payload,
    setCookie :=
      match sessionCookie with
      | some s => if s != "" then some s else none
      | none => none }

/-- Result of one POST invocation: the HTTP response returned to the client
and, when the upstream fetch was reached, the request body sent upstream. -/
structure PostOutcome where
  response : ResponseModel
  upstreamRequest : Option UpstreamRequest

/-- The workflow-id resolution `body?.workflow?.id ?? body?.workflowId ??
WORKFLOW_ID` from route.ts; `wfConfig` models the imported WORKFLOW_ID. -/
def resolveWorkflowId (parsedBody : Option Json) (wfConfig : Option Json) : Option Json :=
  jsCoalesce (jsOptGet (jsOptGet parsedBody "workflow") "id")
    (jsCoalesce (jsOptGet parsedBody "workflowId") wfConfig)

/-- The `body?.chatkit_configuration?.file_upload?.enabled ?? false`
resolution from route.ts. -/
def fileUploadEnabledOf (parsedBody : Option Json) : Json :=
  match jsOptGet (jsOptGet (jsOptGet parsedBody "chatkit_configuration") "file_upload") "enabled" with
  | none => .bool false
  | some .null => .bool false
  | some v => v

/-- Hint string of the missing-key 500 response. -/
def missingKeyHint : String :=
  "Set it in Vercel → Project → Settings → Environment Variables"

/-- Hint string of the missing-workflow-id 400 response. -/
def missingWorkflowHint : String :=
  "Provide \x7b workflow: \x7b id: \x27wf_...\x27 \x7d \x7d in the POST body, or set WORKFLOW_ID in \x27@/lib/config\x27."

/-- POST from src/app/api/create-session/route.ts.  `generatedId` models the
value `crypto.randomUUID()` would produce on this invocation; `upstream` the
behaviour of the single fetch.  The only statement in the try block that can
throw is the fetch itself (`safeParseJson` and `.json()` catch their own
errors), so the catch branch fires exactly on `UpstreamOutcome.netFailure`,
with `sessionCookie` already resolved. -/
def POST (env : PostEnv) (wfConfig : Option Json) (req : PostRequest)
    (generatedId : String) (upstream : UpstreamOutcome) : PostOutcome :=
  if !(strTruthy env.openaiApiKey) then
    { response :=
        jsonResp
          [("error", .str "Missing OPENAI_API_KEY environment variable"),
           ("hint", .str missingKeyHint)] 500 none,
      upstreamRequest := none }
  else
    let resolved := resolveUserId req.cookieHeader generatedId env.nodeEnvProduction
    let userId := resolved.1
    let sessionCookie := resolved.2
    let resolvedWorkflowId := resolveWorkflowId req.parsedBody wfConfig
    if !(jsOptTruthy resolvedWorkflowId) then
      { response :=
          jsonResp
            [("error", .str "Missing workflow id"),
             ("hint", .str missingWorkflowHint)] 400 sessionCookie,
        upstreamRequest := none }
    else
      let upstreamReq : UpstreamRequest :=
        { user := userId,
          workflow := jsCoalesceNull resolvedWorkflowId,
          fileUploadEnabled := fileUploadEnabledOf req.parsedBody }
      match upstream with
      | .netFailure =>
        { response :=
            jsonResp [("error", .str "Unexpected error while creating session")] 500 sessionCookie,
          upstreamRequest := some upstreamReq }
      | .response ok status statusText bodyJson =>
        let upstreamJson := bodyJson.getD (.obj [])
        if !ok then
          let upstreamError := extractUpstreamError upstreamJson
          { response :=
              jsonResp
                [("error", .str (upstreamError.getD
                    ("Failed to create session: " ++ toString status ++ " " ++ statusText))),
                 ("details", upstreamJson)] status sessionCookie,
            upstreamRequest := some upstreamReq }
        else
          { response :=
              jsonResp
                [("client_secret", jsCoalesceNull (jsOptGet (some upstreamJson) "client_secret")),
                 ("expires_after", jsCoalesceNull (jsOptGet (some upstreamJson) "expires_after"))]
                200 sessionCookie,
            upstreamRequest := some upstreamReq }

end Route

/-- Worker of `text.replace(/\s+/g, " ")`: each maximal run of JS whitespace
becomes a single space.  The flag records whether the previous character was
part of a whitespace run. -/
def collapseWsAux : Bool → List Char → List Char
  | _, [] => []
  | inRun, c :: cs =>
    if isJsWhitespace c then
      if inRun then collapseWsAux true cs else ' ' :: collapseWsAux true cs
    else c :: collapseWsAux false cs

namespace Panel

/-- FactAction from part_003 (`type` is always "save" at the call site). -/
structure FactAction where
  type : String
  factId : String
  factText : String

/-- ClientToolInvocation from part_003; `params` models the
`Record<string, unknown>` of parameters. -/
structure ClientToolInvocation where
  name : String
  params : List (String × Json)

/-- getStringParam from part_003. -/
def getStringParam (params : List (String × Json)) (key : String) : Option String :=
  match getField params key with
  | some (.str s) => some s
  | _ => none

/-- The `text.replace(/\s+/g, " ").trim()` normalization applied to
`fact_text` in onClientTool. -/
def normalizeFactText (text : String) : String :=
  jsTrim (String.mk (collapseWsAux false text.data))

/-- A local UI side effect requested by onClientTool: a call to
`onThemeRequest` or to `onWidgetAction`. -/
inductive ToolEffect where
  | themeRequest (scheme : String)
  | widgetAction (action : FactAction)

/-- Result of one onClientTool invocation: the returned `success` flag, the
UI callbacks invoked, and the processedFacts set afterwards (modelled as a
list with membership via `contains`). -/
structure ToolOutcome where
  success : Bool
  effects : List ToolEffect
  processedFacts : List String

/-- onClientTool from part_003. -/
def onClientTool (processedFacts : List String) (invocation : ClientToolInvocation) :
    ToolOutcome :=
  if invocation.name = "switch_theme" then
    match getStringParam invocation.params "theme" with
    | some requested =>
      if requested = "light" ∨ requested = "dark" then
        { success := true, effects := [.themeRequest requested], processedFacts := processedFacts }
      else
        { success := false, effects := [], processedFacts := processedFacts }
    | none => { success := false, effects := [], processedFacts := processedFacts }
  else if invocation.name = "record_fact" then
    let id := (getStringParam invocation.params "fact_id").getD ""
    let text := (getStringParam invocation.params "fact_text").getD ""
    if id = "" || processedFacts.contains id then
      { success := true, effects := [], processedFacts := processedFacts }
    else
      { success := true,
        effects := [.widgetAction { type := "save", factId := id, factText := normalizeFactText text }],
        processedFacts := id :: processedFacts }
  else
    { success := false, effects := [], processedFacts := processedFacts }

/-- Sequential delivery of client-tool invocations, accumulating the UI
effects and threading the processedFacts set. -/
def runClientTools (processedFacts : List String) :
    List ClientToolInvocation → List ToolEffect × List String
  | [] => ([], processedFacts)
  | inv :: rest =>
    let out := onClientTool processedFacts inv
    let r := runClientTools out.processedFacts rest
    (out.effects ++ r.1, r.2)

/-- Number of `onWidgetAction` calls for a given fact id in an effect list. -/
def countWidgetFor (id : String) (effects : List ToolEffect) : Nat :=
  (effects.filter (fun e =>
    match e with
    | .widgetAction a => a.factId == id
    | _ => false)).length

/-- ErrorState from part_003. -/
structure ErrorState where
  script : Option String
  session : Option String
  integration : Option String
  retryable : Bool

/-- JS `a ?? b` on `string | null` values (only null is skipped; the empty
string is kept). -/
def coalesceStr (a b : Option String) : Option String :=
  match a with
  | none => b
  | some s => some s

/-- The derived value `errors.script ?? (errors.session ?? errors.integration)`
from the render body of ChatKitPanel. -/
def blockingErrorOf (e : ErrorState) : Option String :=
  coalesceStr e.script (coalesceStr e.session e.integration)

/-- What ChatKitPanel renders: the className given to the ChatKit widget and
the props given to ErrorOverlay. -/
structure RenderedPanel where
  chatClassName : String
  overlayError : Option String
  overlayFallback : Option String
  overlayRetry : Bool

/-- The JSX return value of ChatKitPanel as a function of the component
state `errors` and `isInitializingSession`. -/
def renderPanel (errors : ErrorState) (isInitializingSession : Bool) : RenderedPanel :=
  let blockingError := blockingErrorOf errors
  { chatClassName :=
      if strTruthy blockingError || isInitializingSession then "pointer-events-none opacity-0"
      else "block h-full w-full",
    overlayError := blockingError,
    overlayFallback :=
      if strTruthy blockingError || !isInitializingSession then none
      else some "Loading assistant session...",
    overlayRetry := strTruthy blockingError && errors.retryable }

/-- The block of extractErrorDetail that inspects `details` when it is a
record (no `in` guard, unlike route.ts). -/
def nestedDetails : Option Json → Option String
  | some d =>
    if d.isRecord then
      firstOf (asStringOpt (d.get "error")) (AltRoute.recordMessage (d.get "error"))
    else none
  | none => none

/-- extractErrorDetail from part_003: the same cascade as route.ts's
extractUpstreamError but returning `fallback` instead of null, and guarding
object accesses with `isRecord` instead of `in` checks. -/
def extractErrorDetail (payload : Json) (fallback : String) : String :=
  if !(jsTruthy payload) then fallback
  else
    (firstOf (asStringOpt (payload.get "error"))
      (firstOf (AltRoute.recordMessage (payload.get "error"))
        (firstOf (asStringOpt (payload.get "details"))
          (firstOf (nestedDetails (payload.get "details"))
            (asStringOpt (payload.get "message")))))).getD fallback

/-- A partial update passed to setErrorState (a `Partial<ErrorState>`):
an outer `none` means the field is absent from the update object. -/
structure ErrorPatch where
  script : Option (Option String) := none
  session : Option (Option String) := none
  integration : Option (Option String) := none
  retryable : Option Bool := none

/-- A React state update performed by getClientSecret: either a
setErrorState call or a setIsInitializingSession call. -/
inductive PanelUpdate where
  | patchErrors (p : ErrorPatch)
  | setInitializing (b : Bool)

/-- Behaviour of the `fetch(CREATE_SESSION_ENDPOINT, ...)` call inside
getClientSecret: a rejected promise carrying an Error with the given message,
or a response with the given `ok`/`statusText` whose body text parses to
`data` (`none` models an empty or unparseable body, which the code maps to
the empty object). -/
inductive FetchOutcome where
  | netFailure (message : String)
  | response (ok : Bool) (statusText : String) (data : Option Json)

/-- Result of one getClientSecret call: the state updates it performed, in
order, and its outcome (`Except.error` models a thrown Error's message). -/
structure GcsResult where
  updates : List PanelUpdate
  result : Except String String

/-- getClientSecret from part_003.  `mounted` is the value read from
`isMountedRef.current` (constant across the call once the component has
unmounted, since the cleanup effect only ever sets it to false).  Every
state update in the source is guarded by a read of that flag; the throws
from the try block land in the catch block, and the finally block runs on
every path through try/catch. -/
def getClientSecret (wfConfigured : Bool) (currentSecret : Option String)
    (mounted : Bool) (outcome : FetchOutcome) : GcsResult :=
  if !wfConfigured then
    let detail := "Set NEXT_PUBLIC_CHATKIT_WORKFLOW_ID in your .env.local file."
    { updates :=
        if mounted then
          [.patchErrors { session := some (some detail), retryable := some false },
           .setInitializing false]
        else [],
      result := .error detail }
  else
    let pre : List PanelUpdate :=
      if mounted then
        (if !(strTruthy currentSecret) then [PanelUpdate.setInitializing true] else []) ++
        [.patchErrors { session := some none, integration := some none, retryable := some false }]
      else []
    let fin : List PanelUpdate :=
      if mounted && !(strTruthy currentSecret) then [PanelUpdate.setInitializing false] else []
    let catchWith (detail : String) : GcsResult :=
      { updates :=
          pre ++
          (if mounted then
            [PanelUpdate.patchErrors { session := some (some detail), retryable := some false }]
          else []) ++ fin,
        result := .error detail }
    match outcome with
    | .netFailure message => catchWith message
    | .response ok statusText data =>
      let dataJ := data.getD (.obj [])
      if !ok then catchWith (extractErrorDetail dataJ statusText)
      else
        match jsOptGet (some dataJ) "client_secret" with
        | some (.str s) =>
          if s = "" then catchWith "Missing client secret in response"
          else
            { updates :=
                pre ++
                (if mounted then
                  [PanelUpdate.patchErrors { session := some none, integration := some none }]
                else []) ++ fin,
              result := .ok s }
        | _ => catchWith "Missing client secret in response"

end Panel

/-! Theorems about the client-tool handling of ChatKitPanel. -/

/-- Claim C5: onClientTool maps a switch_theme invocation with theme "light"
or "dark" to an onThemeRequest call with that value and success true, any
other theme value to success false with no effect; a record_fact invocation
with a non-empty, unseen fact_id to an onWidgetAction call of type "save"
with that fact_id and the whitespace-collapsed, trimmed fact text, returning
success true; and an invocation with any other name to success false with no
UI effect. -/
theorem onClientTool_cases :
    ∀ (processed : List String) (params : List (String × Json)),
    (∀ t, Panel.getStringParam params "theme" = some t → (t = "light" ∨ t = "dark") →
       Panel.onClientTool processed { name := "switch_theme", params := params } =
         { success := true, effects := [.themeRequest t], processedFacts := processed }) ∧
    (∀ t, Panel.getStringParam params "theme" = some t → t ≠ "light" → t ≠ "dark" →
       Panel.onClientTool processed { name := "switch_theme", params := params } =
         { success := false, effects := [], processedFacts := processed }) ∧
    (Panel.getStringParam params "theme" = none →
       Panel.onClientTool processed { name := "switch_theme", params := params } =
         { success := false, effects := [], processedFacts := processed }) ∧
    (∀ id, Panel.getStringParam params "fact_id" = some id → id ≠ "" →
       id ∉ processed →
       Panel.onClientTool processed { name := "record_fact", params := params } =
         { success := true,
           effects := [.widgetAction ⟨"save", id,
             Panel.normalizeFactText ((Panel.getStringParam params "fact_text").getD "")⟩],
           processedFacts := id :: processed }) ∧
    (∀ nm, nm ≠ "switch_theme" → nm ≠ "record_fact" →
       Panel.onClientTool processed { name := nm, params := params } =
         { success := false, effects := [], processedFacts := processed }) := by
  intro processed params
  refine ⟨?_, ?_, ?_, ?_, ?_⟩
  · intro t ht hlt
    simp [Panel.onClientTool, ht, hlt]
  · intro t ht hl hd
    simp [Panel.onClientTool, ht, hl, hd]
  · intro ht
    simp [Panel.onClientTool, ht]
  · intro id hid hne hmem
    simp [Panel.onClientTool, hid, hne, hmem]
  · intro nm h1 h2
    simp [Panel.onClientTool, h1, h2]

/-- Witness for C5: a concrete record_fact invocation. -/
theorem onClientTool_cases_witness :
    Panel.onClientTool [] ⟨"record_fact", [("fact_id", Json.str "f1"), ("fact_text", Json.str " a  b ")]⟩ =
      { success := true,
        effects := [.widgetAction ⟨"save", "f1", "a b"⟩],
        processedFacts := ["f1"] } :=
  (onClientTool_cases [] [("fact_id", Json.str "f1"), ("fact_text", Json.str " a  b ")]).2.2.2.1
    "f1" rfl (by decide) (by decide)

/-- Claim C7: once the component has unmounted (every read of
`isMountedRef.current` yields false), no path through getClientSecret — the
pre-fetch block, the success branch, the catch branch or the finally
branch — performs any error-state or initializing-session state update. -/
theorem getClientSecret_no_updates_after_unmount :
    ∀ (wfConfigured : Bool) (currentSecret : Option String) (outcome : Panel.FetchOutcome),
    (Panel.getClientSecret wfConfigured currentSecret false outcome).updates = [] := by
  intro wf cs outcome
  cases wf <;> cases outcome <;>
    simp [Panel.getClientSecret] <;> (repeat' split) <;> simp

/-- Claim C6: the chat widget receives the hiding className exactly when the
blocking error (script error, else session error, else integration error) is
truthy or a session is being initialized; the ErrorOverlay receives the
blocking error, and receives the loading message exactly when no truthy
blocking error exists and initialization is in progress. -/
theorem renderPanel_overlay_invariant :
    ∀ (errors : Panel.ErrorState) (init : Bool),
    ((Panel.renderPanel errors init).chatClassName = "pointer-events-none opacity-0" ↔
       (strTruthy (Panel.blockingErrorOf errors) = true ∨ init = true)) ∧
    ((Panel.renderPanel errors init).chatClassName = "block h-full w-full" ↔
       ¬(strTruthy (Panel.blockingErrorOf errors) = true ∨ init = true)) ∧
    ((Panel.renderPanel errors init).overlayError = Panel.blockingErrorOf errors) ∧
    ((Panel.renderPanel errors init).overlayFallback = some "Loading assistant session..." ↔
       (strTruthy (Panel.blockingErrorOf errors) = false ∧ init = true)) ∧
    ((Panel.renderPanel errors init).overlayFallback = none ↔
       ¬(strTruthy (Panel.blockingErrorOf errors) = false ∧ init = true)) := by
  intro e init
  cases h : strTruthy (Panel.blockingErrorOf e) <;> cases init <;>
    simp [Panel.renderPanel, h]

lemma countWidgetFor_nil (id : String) : Panel.countWidgetFor id [] = 0 := rfl

lemma countWidgetFor_theme (id t : String) (rest : List Panel.ToolEffect) :
    Panel.countWidgetFor id (.themeRequest t :: rest) = Panel.countWidgetFor id rest := by
  simp [Panel.countWidgetFor, List.filter_cons]

lemma countWidgetFor_widget (id : String) (a : Panel.FactAction) (rest : List Panel.ToolEffect) :
    Panel.countWidgetFor id (.widgetAction a :: rest) =
      (if a.factId = id then 1 else 0) + Panel.countWidgetFor id rest := by
  simp only [Panel.countWidgetFor, List.filter_cons]
  by_cases h : a.factId = id <;> simp [h] <;> omega

lemma onClientTool_shape (s : List String) (inv : Panel.ClientToolInvocation) :
    ((Panel.onClientTool s inv).effects = [] ∧ (Panel.onClientTool s inv).processedFacts = s) ∨
    (∃ t, (Panel.onClientTool s inv).effects = [.themeRequest t] ∧
       (Panel.onClientTool s inv).processedFacts = s) ∨
    (∃ i txt, i ∉ s ∧ (Panel.onClientTool s inv).effects = [.widgetAction ⟨"save", i, txt⟩] ∧
       (Panel.onClientTool s inv).processedFacts = i :: s) := by
  unfold Panel.onClientTool
  by_cases h1 : inv.name = "switch_theme"
  · rcases hgp : Panel.getStringParam inv.params "theme" with _ | t
    · simp [h1, hgp]
    · by_cases h2 : t = "light" ∨ t = "dark" <;> simp [h1, hgp, h2]
  · by_cases h3 : inv.name = "record_fact"
    · by_cases h4 : (Panel.getStringParam inv.params "fact_id").getD "" = "" ∨
        (Panel.getStringParam inv.params "fact_id").getD "" ∈ s
      · simp [h1, h3, h4]
      · push_neg at h4
        simp [h1, h3, h4.1, h4.2]
    · simp [h1, h3]

lemma onClientTool_processed_mono (s : List String) (inv : Panel.ClientToolInvocation)
    (x : String) (h : x ∈ s) : x ∈ (Panel.onClientTool s inv).processedFacts := by
  rcases onClientTool_shape s inv with ⟨_, hp⟩ | ⟨t, _, hp⟩ | ⟨i, txt, _, _, hp⟩ <;>
    rw [hp] <;> simp [h]

lemma countWidgetFor_append (id : String) (a b : List Panel.ToolEffect) :
    Panel.countWidgetFor id (a ++ b) = Panel.countWidgetFor id a + Panel.countWidgetFor id b := by
  simp [Panel.countWidgetFor, List.filter_append]

lemma onClientTool_count_le_one (s : List String) (inv : Panel.ClientToolInvocation)
    (id : String) : Panel.countWidgetFor id (Panel.onClientTool s inv).effects ≤ 1 := by
  rcases onClientTool_shape s inv with ⟨he, _⟩ | ⟨t, he, _⟩ | ⟨i, txt, _, he, _⟩ <;> rw [he]
  · simp [countWidgetFor_nil]
  · simp [countWidgetFor_theme, countWidgetFor_nil]
  · rw [countWidgetFor_widget, countWidgetFor_nil]
    split <;> simp

lemma onClientTool_emit_facts (s : List String) (inv : Panel.ClientToolInvocation)
    (id : String) (h : 1 ≤ Panel.countWidgetFor id (Panel.onClientTool s inv).effects) :
    id ∉ s ∧ id ∈ (Panel.onClientTool s inv).processedFacts := by
  rcases onClientTool_shape s inv with ⟨he, hp⟩ | ⟨t, he, hp⟩ | ⟨i, txt, hni, he, hp⟩ <;>
    rw [he] at h
  · simp [countWidgetFor_nil] at h
  · simp [countWidgetFor_theme, countWidgetFor_nil] at h
  · rw [countWidgetFor_widget, countWidgetFor_nil] at h
    by_cases hiq : (Panel.FactAction.mk "save" i txt).factId = id
    · simp at hiq
      subst hiq
      exact ⟨hni, by rw [hp]; simp⟩
    · simp [hiq] at h

lemma onClientTool_no_emit_of_mem (s : List String) (inv : Panel.ClientToolInvocation)
    (id : String) (h : id ∈ s) :
    Panel.countWidgetFor id (Panel.onClientTool s inv).effects = 0 := by
  rcases onClientTool_shape s inv with ⟨he, _⟩ | ⟨t, he, _⟩ | ⟨i, txt, hni, he, _⟩ <;> rw [he]
  · simp [countWidgetFor_nil]
  · simp [countWidgetFor_theme, countWidgetFor_nil]
  · rw [countWidgetFor_widget, countWidgetFor_nil]
    have : ¬(Panel.FactAction.mk "save" i txt).factId = id := by
      simp
      intro hq
      exact absurd (hq ▸ h) hni
    simp [this]

lemma runClientTools_count (invs : List Panel.ClientToolInvocation) :
    ∀ (s : List String) (id : String),
    Panel.countWidgetFor id (Panel.runClientTools s invs).1 ≤ (if id ∈ s then 0 else 1) := by
  induction invs with
  | nil =>
    intro s id
    simp [Panel.runClientTools, countWidgetFor_nil]
  | cons inv rest ih =>
    intro s id
    simp only [Panel.runClientTools, countWidgetFor_append]
    rcases hc : Panel.countWidgetFor id (Panel.onClientTool s inv).effects with _ | n
    · have hrest := ih (Panel.onClientTool s inv).processedFacts id
      by_cases hmem : id ∈ s
      · have hmem2 := onClientTool_processed_mono s inv id hmem
        simp [hmem, hmem2] at hrest ⊢
        omega
      · simp [hmem]
        split at hrest <;> omega
    · have h1 := onClientTool_count_le_one s inv id
      rw [hc] at h1
      have hn : n = 0 := by omega
      subst hn
      have hfacts := onClientTool_emit_facts s inv id (by omega)
      have hrest := ih (Panel.onClientTool s inv).processedFacts id
      simp [hfacts.2] at hrest
      simp [hfacts.1]
      omega

/-- Claim C8. -/
theorem record_fact_at_most_once :
    ∀ (processed : List String) (invs : List Panel.ClientToolInvocation) (id : String),
    (Panel.countWidgetFor id (Panel.runClientTools processed invs).1 ≤ 1) ∧
    (id ∈ processed → Panel.countWidgetFor id (Panel.runClientTools processed invs).1 = 0) ∧
    (∀ params, ((Panel.getStringParam params "fact_id").getD "" = "" ∨
        (Panel.getStringParam params "fact_id").getD "" ∈ processed) →
      Panel.onClientTool processed ⟨"record_fact", params⟩ =
        { success := true, effects := [], processedFacts := processed }) := by
  intro processed invs id
  refine ⟨?_, ?_, ?_⟩
  · have h := runClientTools_count invs processed id
    split at h <;> omega
  · intro hmem
    have h := runClientTools_count invs processed id
    simp [hmem] at h
    omega
  · intro params hcond
    simp [Panel.onClientTool, hcond]

theorem record_fact_at_most_once_witness :
    Panel.countWidgetFor "a"
      (Panel.runClientTools ["a"] [⟨"record_fact", [("fact_id", Json.str "a")]⟩]).1 = 0 :=
  (record_fact_at_most_once ["a"] [⟨"record_fact", [("fact_id", Json.str "a")]⟩] "a").2.1
    (by decide)

lemma serializeSessionCookie_ne_empty (v : String) (prod : Bool) :
    Route.serializeSessionCookie v prod ≠ "" := by
  intro h
  have hl := congrArg String.length h
  cases prod <;>
    simp [Route.serializeSessionCookie, jsJoin, String.length_append] at hl <;>
    exact absurd hl.1.1.1.2 (by decide)

/-- Claim C1 (amended): when the handler reaches the upstream call (API key
present, workflow id resolved), a non-ok upstream response is passed through
with exactly the upstream status; a network failure yields status 500 with
exactly the generic error body; and an upstream body that fails to parse as
JSON is treated as an empty object rather than an error, so an ok upstream
response with an unparseable body yields 200 with null credentials. -/
theorem post_upstream_error_propagation :
    ∀ (env : Route.PostEnv) (wfConfig : Option Json) (req : Route.PostRequest)
      (generatedId : String),
    strTruthy env.openaiApiKey = true →
    jsOptTruthy (Route.resolveWorkflowId req.parsedBody wfConfig) = true →
    (∀ status statusText bodyJson,
       (Route.POST env wfConfig req generatedId
         (.response false status statusText bodyJson)).response.status = status) ∧
    ((Route.POST env wfConfig req generatedId .netFailure).response.status = 500 ∧
     (Route.POST env wfConfig req generatedId .netFailure).response.bodyFields =
       [("error", .str "Unexpected error while creating session")]) ∧
    (∀ status statusText,
       (Route.POST env wfConfig req generatedId
         (.response true status statusText none)).response.status = 200 ∧
       (Route.POST env wfConfig req generatedId
         (.response true status statusText none)).response.bodyFields =
         [("client_secret", Json.null), ("expires_after", Json.null)]) := by
  intro env wf req gen hk hw
  refine ⟨?_, ⟨?_, ?_⟩, ?_⟩ <;>
    simp [Route.POST, Route.jsonResp, hk, hw, jsOptGet, Json.get, getField, jsCoalesceNull]

/-- Witness for C1: a concrete 401 upstream error is passed through. -/
theorem post_upstream_error_propagation_witness :
    (Route.POST ⟨some "k", false⟩ (some (Json.str "wf_1")) ⟨none, none⟩ "g"
      (.response false 401 "Unauthorized" (some (Json.obj [])))).response.status = 401 :=
  (post_upstream_error_propagation ⟨some "k", false⟩ (some (Json.str "wf_1")) ⟨none, none⟩ "g"
    (by decide) (by decide)).1 401 "Unauthorized" (some (Json.obj []))

/-- Counterexample to claim C1 as stated: when the upstream response is ok
but its body fails to parse as JSON, the endpoint returns 200, not the
claimed generic 500. -/
theorem post_parse_failure_not_500 :
    (Route.POST ⟨some "k", false⟩ (some (Json.str "wf_1")) ⟨none, none⟩ "g"
        (.response true 200 "OK" none)).response.status = 200 ∧
    (Route.POST ⟨some "k", false⟩ (some (Json.str "wf_1")) ⟨none, none⟩ "g"
        (.response true 200 "OK" none)).response.status ≠ 500 := by
  decide

/-- Claim C2 (amended): when the API key is present, a request whose cookie
header parses to a non-empty chatkit_session_id value v sends v as the
upstream user field and gets no Set-Cookie header back; a request with no
such cookie, or with an empty value, uses the freshly generated id as the
user field and receives it in a Set-Cookie header on every response
(including the 400 missing-workflow-id response and upstream-error
responses). -/
theorem post_sticky_cookie :
    ∀ (env : Route.PostEnv) (wfConfig : Option Json) (req : Route.PostRequest)
      (generatedId : String) (upstream : Route.UpstreamOutcome),
    strTruthy env.openaiApiKey = true →
    (∀ v, Route.getCookieValue req.cookieHeader Route.SESSION_COOKIE_NAME = some v → v ≠ "" →
       (∀ u, (Route.POST env wfConfig req generatedId upstream).upstreamRequest = some u →
          u.user = v) ∧
       (Route.POST env wfConfig req generatedId upstream).response.setCookie = none) ∧
    ((Route.getCookieValue req.cookieHeader Route.SESSION_COOKIE_NAME = none ∨
      Route.getCookieValue req.cookieHeader Route.SESSION_COOKIE_NAME = some "") →
       (∀ u, (Route.POST env wfConfig req generatedId upstream).upstreamRequest = some u →
          u.user = generatedId) ∧
       (Route.POST env wfConfig req generatedId upstream).response.setCookie =
         some (Route.serializeSessionCookie generatedId env.nodeEnvProduction)) := by
  intro env wf req gen upstream hk
  constructor
  · intro v hv hne
    have hres : Route.resolveUserId req.cookieHeader gen env.nodeEnvProduction = (v, none) := by
      simp [Route.resolveUserId, hv, hne]
    constructor
    · intro u hu
      revert hu
      simp only [Route.POST, hk, Bool.not_true, Bool.false_eq_true, if_false, hres]
      (repeat' split) <;> simp <;> intro h <;> simp [← h]
    · simp only [Route.POST, hk, Bool.not_true, Bool.false_eq_true, if_false, hres]
      (repeat' split) <;> simp [Route.jsonResp]
  · intro hmiss
    have hres : Route.resolveUserId req.cookieHeader gen env.nodeEnvProduction =
        (gen, some (Route.serializeSessionCookie gen env.nodeEnvProduction)) := by
      rcases hmiss with h | h <;> simp [Route.resolveUserId, h]
    constructor
    · intro u hu
      revert hu
      simp only [Route.POST, hk, Bool.not_true, Bool.false_eq_true, if_false, hres]
      (repeat' split) <;> simp <;> intro h <;> simp [← h]
    · simp only [Route.POST, hk, Bool.not_true, Bool.false_eq_true, if_false, hres]
      (repeat' split) <;>
        simp [Route.jsonResp, serializeSessionCookie_ne_empty gen env.nodeEnvProduction]

/-- Witness for C2: a concrete request with an existing cookie gets no
Set-Cookie header. -/
theorem post_sticky_cookie_witness :
    (Route.POST ⟨some "k", false⟩ (some (Json.str "wf_1"))
      ⟨some "chatkit_session_id=abc", none⟩ "g"
      (.response true 200 "OK" none)).response.setCookie = none :=
  ((post_sticky_cookie ⟨some "k", false⟩ (some (Json.str "wf_1"))
      ⟨some "chatkit_session_id=abc", none⟩ "g" (.response true 200 "OK" none) (by decide)).1
    "abc" (by decide) (by decide)).2

/-- Counterexample to claim C2 as stated: a request carrying the cookie
chatkit_session_id with the empty value has its cookie ignored — the
freshly generated id is sent upstream as the user field and a Set-Cookie
header is returned, contrary to the claim's promise for every carried
cookie value. -/
theorem post_empty_cookie_regenerates :
    Route.getCookieValue (some "chatkit_session_id=") Route.SESSION_COOKIE_NAME = some "" ∧
    (Route.POST ⟨some "k", false⟩ (some (Json.str "wf_1"))
        ⟨some "chatkit_session_id=", none⟩ "11111111-1111-4111-8111-111111111111"
        (.response true 200 "OK" none)).upstreamRequest =
      some { user := "11111111-1111-4111-8111-111111111111", workflow := Json.str "wf_1",
             fileUploadEnabled := Json.bool false } ∧
    (Route.POST ⟨some "k", false⟩ (some (Json.str "wf_1"))
        ⟨some "chatkit_session_id=", none⟩ "11111111-1111-4111-8111-111111111111"
        (.response true 200 "OK" none)).response.setCookie =
      some (Route.serializeSessionCookie "11111111-1111-4111-8111-111111111111" false) :=
  ⟨rfl, rfl, rfl⟩

/-- Claim C4: on an ok upstream response the endpoint returns 200 with a
body holding exactly the fields client_secret and expires_after, copied from
the upstream JSON when present and non-null there, null when absent; no
other upstream field appears in the body. -/
theorem post_ok_only_credentials :
    ∀ (env : Route.PostEnv) (wfConfig : Option Json) (req : Route.PostRequest)
      (generatedId : String) (status : Nat) (statusText : String) (j : Json),
    strTruthy env.openaiApiKey = true →
    jsOptTruthy (Route.resolveWorkflowId req.parsedBody wfConfig) = true →
    ((Route.POST env wfConfig req generatedId
        (.response true status statusText (some j))).response.status = 200) ∧
    ((Route.POST env wfConfig req generatedId
        (.response true status statusText (some j))).response.bodyFields.map Prod.fst =
      ["client_secret", "expires_after"]) ∧
    (∀ v, jsOptGet (some j) "client_secret" = some v → v ≠ Json.null →
       getField (Route.POST env wfConfig req generatedId
         (.response true status statusText (some j))).response.bodyFields "client_secret" =
         some v) ∧
    (jsOptGet (some j) "client_secret" = none →
       getField (Route.POST env wfConfig req generatedId
         (.response true status statusText (some j))).response.bodyFields "client_secret" =
         some Json.null) ∧
    (∀ v, jsOptGet (some j) "expires_after" = some v → v ≠ Json.null →
       getField (Route.POST env wfConfig req generatedId
         (.response true status statusText (some j))).response.bodyFields "expires_after" =
         some v) ∧
    (jsOptGet (some j) "expires_after" = none →
       getField (Route.POST env wfConfig req generatedId
         (.response true status statusText (some j))).response.bodyFields "expires_after" =
         some Json.null) := by
  intro env wf req gen st stx j hk hw
  have hbody : (Route.POST env wf req gen (.response true st stx (some j))).response.bodyFields =
      [("client_secret", jsCoalesceNull (jsOptGet (some j) "client_secret")),
       ("expires_after", jsCoalesceNull (jsOptGet (some j) "expires_after"))] := by
    simp [Route.POST, Route.jsonResp, hk, hw]
  refine ⟨?_, ?_, ?_, ?_, ?_, ?_⟩
  · simp [Route.POST, Route.jsonResp, hk, hw]
  · rw [hbody]
    rfl
  · intro v hv hne
    rw [hbody, hv]
    cases v <;> simp_all [getField, jsCoalesceNull]
  · intro hv
    rw [hbody, hv]
    simp [getField, jsCoalesceNull]
  · intro v hv hne
    rw [hbody, hv]
    cases v <;> simp_all [getField, jsCoalesceNull]
  · intro hv
    rw [hbody, hv]
    simp [getField, jsCoalesceNull]

/-- Witness for C4: a concrete ok response copies client_secret and drops
the other upstream field. -/
theorem post_ok_only_credentials_witness :
    getField (Route.POST ⟨some "k", false⟩ (some (Json.str "wf_1")) ⟨none, none⟩ "g"
      (.response true 200 "OK" (some (Json.obj [("client_secret", Json.str "cs"),
        ("workflow", Json.str "leak")])))).response.bodyFields "client_secret" =
      some (Json.str "cs") :=
  (post_ok_only_credentials ⟨some "k", false⟩ (some (Json.str "wf_1")) ⟨none, none⟩ "g"
      200 "OK" (Json.obj [("client_secret", Json.str "cs"), ("workflow", Json.str "leak")])
      (by decide) (by decide)).2.2.1 (Json.str "cs") rfl (by simp)

namespace Spec

/-- Claim C3's phrase "when it is a string", as a candidate extractor. -/
def stringOnly : Option Json → Option String
  | some (.str s) => some s
  | _ => none

/-- Claim C3's phrase "when it is an object with a string message". -/
def objectMessage : Option Json → Option String
  | some j =>
    if j.isRecord then
      match j.get "message" with
      | some (.str s) => some s
      | _ => none
    else none
  | none => none

/-- The value at details.error, as the claim reads it. -/
def detailsError (p : Json) : Option Json :=
  (p.get "details").bind (fun d => d.get "error")

/-- First string produced by a candidate list, in order. -/
def firstSome : List (Option String) → Option String
  | [] => none
  | some s :: _ => some s
  | none :: rest => firstSome rest

/-- Claim C3's candidate order: error; error.message; details; details.error;
details.error.message; message. -/
def errorCandidates (p : Json) : List (Option String) :=
  [stringOnly (p.get "error"),
   objectMessage (p.get "error"),
   stringOnly (p.get "details"),
   stringOnly (detailsError p),
   objectMessage (detailsError p),
   stringOnly (p.get "message")]

end Spec

lemma firstSome_cons (x : Option String) (xs : List (Option String)) :
    Spec.firstSome (x :: xs) = firstOf x (Spec.firstSome xs) := by
  cases x <;> rfl

lemma firstOf_none_right (a : Option String) : firstOf a none = a := by
  cases a <;> rfl

lemma firstOf_assoc (a b c : Option String) :
    firstOf (firstOf a b) c = firstOf a (firstOf b c) := by
  cases a <;> rfl

lemma asStringOpt_eq_stringOnly (v : Option Json) : asStringOpt v = Spec.stringOnly v := by
  rcases v with _ | j
  · rfl
  · cases j <;> rfl

lemma recordMessageIn_eq_objectMessage (v : Option Json) :
    Route.recordMessageIn v = Spec.objectMessage v := by
  rcases v with _ | j
  · rfl
  · cases j with
    | obj fs =>
      rcases hm : getField fs "message" with _ | m
      · simp [Route.recordMessageIn, Spec.objectMessage, Json.isRecord, Json.hasKey,
          Json.get, hm, asStringOpt]
      · cases m <;>
          simp [Route.recordMessageIn, Spec.objectMessage, Json.isRecord, Json.hasKey,
            Json.get, hm, asStringOpt]
    | arr xs => rfl
    | null => rfl
    | bool b => rfl
    | num n => rfl
    | str s => rfl

lemma nestedDetailsError_eq (d : Option Json) :
    Route.nestedDetailsError d =
      firstOf (Spec.stringOnly (d.bind (fun x => x.get "error")))
        (Spec.objectMessage (d.bind (fun x => x.get "error"))) := by
  rcases d with _ | dj
  · rfl
  · cases dj with
    | obj fs =>
      rcases he : getField fs "error" with _ | e
      · simp [Route.nestedDetailsError, Json.isRecord, Json.hasKey, Json.get, he,
          Spec.stringOnly, Spec.objectMessage, firstOf]
      · simp [Route.nestedDetailsError, Json.isRecord, Json.hasKey, Json.get, he,
          recordMessageIn_eq_objectMessage, asStringOpt_eq_stringOnly]
    | arr xs => rfl
    | null => rfl
    | bool b => rfl
    | num n => rfl
    | str s => rfl

/-- Claim C3: extractUpstreamError returns the first string among, in order:
a string error field; error.message for an object error with string message;
a string details field; a string details.error; details.error.message for an
object details.error with string message; a string message field; and null
when none yields a string, in which case the endpoint's error field falls
back to "Failed to create session: <status> <statusText>". -/
theorem extractUpstreamError_claim_order :
    (∀ p : Json, Route.extractUpstreamError p = Spec.firstSome (Spec.errorCandidates p)) ∧
    (∀ (env : Route.PostEnv) (wfConfig : Option Json) (req : Route.PostRequest)
       (generatedId : String) (status : Nat) (statusText : String) (bodyJson : Option Json),
       strTruthy env.openaiApiKey = true →
       jsOptTruthy (Route.resolveWorkflowId req.parsedBody wfConfig) = true →
       Route.extractUpstreamError (bodyJson.getD (Json.obj [])) = none →
       getField (Route.POST env wfConfig req generatedId
          (.response false status statusText bodyJson)).response.bodyFields "error" =
         some (Json.str ("Failed to create session: " ++ toString status ++ " " ++ statusText))) := by
  constructor
  · intro p
    cases p with
    | obj fs =>
      simp only [Route.extractUpstreamError, jsTruthy, Bool.not_true, Bool.false_eq_true,
        if_false, Spec.errorCandidates, firstSome_cons, Spec.firstSome,
        recordMessageIn_eq_objectMessage, asStringOpt_eq_stringOnly, nestedDetailsError_eq,
        firstOf_none_right, firstOf_assoc, Spec.detailsError]
    | null => rfl
    | bool b => cases b <;> rfl
    | num n =>
      simp only [Route.extractUpstreamError, Spec.errorCandidates, Spec.firstSome,
        firstSome_cons, Json.get, Spec.detailsError, Spec.stringOnly, Spec.objectMessage,
        asStringOpt, Route.recordMessageIn, Route.nestedDetailsError, firstOf, Option.bind]
      split <;> rfl
    | str s =>
      simp only [Route.extractUpstreamError, Spec.errorCandidates, Spec.firstSome,
        firstSome_cons, Json.get, Spec.detailsError, Spec.stringOnly, Spec.objectMessage,
        asStringOpt, Route.recordMessageIn, Route.nestedDetailsError, firstOf, Option.bind]
      split <;> rfl
    | arr xs => rfl
  · intro env wf req gen st stx bj hk hw hnone
    simp [Route.POST, Route.jsonResp, hk, hw, hnone, getField]

/-- Witness for C3: a concrete upstream error body with no extractable
message produces the fallback error string. -/
theorem extractUpstreamError_claim_order_witness :
    getField (Route.POST ⟨some "k", false⟩ (some (Json.str "wf_1")) ⟨none, none⟩ "g"
      (.response false 503 "Service Unavailable" (some (Json.obj [])))).response.bodyFields
      "error" =
      some (Json.str "Failed to create session: 503 Service Unavailable") :=
  extractUpstreamError_claim_order.2 ⟨some "k", false⟩ (some (Json.str "wf_1")) ⟨none, none⟩
    "g" 503 "Service Unavailable" (some (Json.obj [])) (by decide) (by decide) rfl

/-- Counterexample to claim C10 as stated: on the payload
obj [details: "boom"] the route.ts extractor returns "boom" while the
part_000 extractor returns null (it never reads a string-valued details
field, and it consults the shapes in a different order). -/
theorem extractors_disagree_on_details_string :
    Route.extractUpstreamError (Json.obj [("details", Json.str "boom")]) = some "boom" ∧
    AltRoute.extractUpstreamError (Json.obj [("details", Json.str "boom")]) = none :=
  ⟨rfl, rfl⟩

/-- Claim C10 (amended): the two extractors agree on every payload that has
no top-level details or message key and whose error field, when it is an
object, does not carry an empty-string message; in general they differ (the
part_000 extractor skips string details fields, prefers nested messages over
a string error field, and drops empty-string nested messages). -/
theorem extractors_agree_without_details_message :
    ∀ p : Json,
    p.get "details" = none →
    p.get "message" = none →
    (∀ e, p.get "error" = some e → e.get "message" ≠ some (Json.str "")) →
    Route.extractUpstreamError p = AltRoute.extractUpstreamError p := by
  intro p hd hm hne
  cases p with
  | null => rfl
  | bool b => cases b <;> rfl
  | arr xs => rfl
  | num n =>
    simp only [Route.extractUpstreamError, AltRoute.extractUpstreamError,
      AltRoute.getNestedMessage, Json.get, Json.isRecord, asStringOpt,
      Route.recordMessageIn, Route.nestedDetailsError, AltRoute.recordMessage, firstOf]
    split <;> rfl
  | str s =>
    simp only [Route.extractUpstreamError, AltRoute.extractUpstreamError,
      AltRoute.getNestedMessage, Json.get, Json.isRecord, asStringOpt,
      Route.recordMessageIn, Route.nestedDetailsError, AltRoute.recordMessage, firstOf]
    split <;> rfl
  | obj fs =>
    have hd2 : getField fs "details" = none := hd
    have hm2 : getField fs "message" = none := hm
    rcases he : getField fs "error" with _ | e
    · simp [Route.extractUpstreamError, AltRoute.extractUpstreamError,
        AltRoute.getNestedMessage, Json.isRecord, Json.get, jsTruthy, he, hd2, hm2, asStringOpt,
        Route.recordMessageIn, Route.nestedDetailsError, AltRoute.recordMessage, firstOf]
    · have he2 : Json.get (Json.obj fs) "error" = some e := he
      cases e with
      | obj gs =>
        have hmsg := hne (Json.obj gs) he2
        rcases hmm : getField gs "message" with _ | m
        · simp [Route.extractUpstreamError, AltRoute.extractUpstreamError,
            AltRoute.getNestedMessage, Json.isRecord, Json.get, jsTruthy, Json.hasKey, he, hd2, hm2,
            hmm, asStringOpt, Route.recordMessageIn, Route.nestedDetailsError,
            AltRoute.recordMessage, firstOf]
        · cases m with
          | str t =>
            have ht : t ≠ "" := by
              intro h
              subst h
              exact hmsg (by simp [Json.get, hmm])
            simp [Route.extractUpstreamError, AltRoute.extractUpstreamError,
              AltRoute.getNestedMessage, Json.isRecord, Json.get, jsTruthy, Json.hasKey, he, hd2,
              hm2, hmm, asStringOpt, Route.recordMessageIn, Route.nestedDetailsError,
              AltRoute.recordMessage, firstOf, ht]
          | null =>
            simp [Route.extractUpstreamError, AltRoute.extractUpstreamError,
              AltRoute.getNestedMessage, Json.isRecord, Json.get, jsTruthy, Json.hasKey, he, hd2,
              hm2, hmm, asStringOpt, Route.recordMessageIn, Route.nestedDetailsError,
              AltRoute.recordMessage, firstOf]
          | bool b =>
            simp [Route.extractUpstreamError, AltRoute.extractUpstreamError,
              AltRoute.getNestedMessage, Json.isRecord, Json.get, jsTruthy, Json.hasKey, he, hd2,
              hm2, hmm, asStringOpt, Route.recordMessageIn, Route.nestedDetailsError,
              AltRoute.recordMessage, firstOf]
          | num k =>
            simp [Route.extractUpstreamError, AltRoute.extractUpstreamError,
              AltRoute.getNestedMessage, Json.isRecord, Json.get, jsTruthy, Json.hasKey, he, hd2,
              hm2, hmm, asStringOpt, Route.recordMessageIn, Route.nestedDetailsError,
              AltRoute.recordMessage, firstOf]
          | arr ys =>
            simp [Route.extractUpstreamError, AltRoute.extractUpstreamError,
              AltRoute.getNestedMessage, Json.isRecord, Json.get, jsTruthy, Json.hasKey, he, hd2,
              hm2, hmm, asStringOpt, Route.recordMessageIn, Route.nestedDetailsError,
              AltRoute.recordMessage, firstOf]
          | obj hs =>
            simp [Route.extractUpstreamError, AltRoute.extractUpstreamError,
              AltRoute.getNestedMessage, Json.isRecord, Json.get, jsTruthy, Json.hasKey, he, hd2,
              hm2, hmm, asStringOpt, Route.recordMessageIn, Route.nestedDetailsError,
              AltRoute.recordMessage, firstOf]
      | str s =>
        simp [Route.extractUpstreamError, AltRoute.extractUpstreamError,
          AltRoute.getNestedMessage, Json.isRecord, Json.get, jsTruthy, he, hd2, hm2, asStringOpt,
          Route.recordMessageIn, Route.nestedDetailsError, AltRoute.recordMessage, firstOf]
      | null =>
        simp [Route.extractUpstreamError, AltRoute.extractUpstreamError,
          AltRoute.getNestedMessage, Json.isRecord, Json.get, jsTruthy, he, hd2, hm2, asStringOpt,
          Route.recordMessageIn, Route.nestedDetailsError, AltRoute.recordMessage, firstOf]
      | bool b =>
        simp [Route.extractUpstreamError, AltRoute.extractUpstreamError,
          AltRoute.getNestedMessage, Json.isRecord, Json.get, jsTruthy, he, hd2, hm2, asStringOpt,
          Route.recordMessageIn, Route.nestedDetailsError, AltRoute.recordMessage, firstOf]
      | num k =>
        simp [Route.extractUpstreamError, AltRoute.extractUpstreamError,
          AltRoute.getNestedMessage, Json.isRecord, Json.get, jsTruthy, he, hd2, hm2, asStringOpt,
          Route.recordMessageIn, Route.nestedDetailsError, AltRoute.recordMessage, firstOf]
      | arr ys =>
        simp [Route.extractUpstreamError, AltRoute.extractUpstreamError,
          AltRoute.getNestedMessage, Json.isRecord, Json.get, jsTruthy, Json.hasKey, he, hd2, hm2,
          asStringOpt, Route.recordMessageIn, Route.nestedDetailsError,
          AltRoute.recordMessage, firstOf]

/-- Witness for C10: the extractors agree on a concrete nested-message
payload. -/
theorem extractors_agree_without_details_message_witness :
    Route.extractUpstreamError (Json.obj [("error", Json.obj [("message", Json.str "m")])]) =
      AltRoute.extractUpstreamError
        (Json.obj [("error", Json.obj [("message", Json.str "m")])]) :=
  extractors_agree_without_details_message
    (Json.obj [("error", Json.obj [("message", Json.str "m")])]) rfl rfl
    (by
      intro e he hq
      simp [Json.get, getField] at he
      subst he
      simp [Json.get, getField] at hq)

lemma stringMk_data (s : String) : String.mk s.data = s := by
  cases s
  rfl

lemma stringData_append (a b : String) : (a ++ b).data = a.data ++ b.data := by
  cases a
  cases b
  rfl

lemma splitCharList_of_not_mem (sep : Char) (a : List Char) (h : sep ∉ a) :
    splitCharList sep a = [a] := by
  induction a with
  | nil => rfl
  | cons c cs ih =>
    have hc : ¬(c = sep) := by
      intro hq
      exact h (by rw [hq]; exact List.mem_cons_self sep cs)
    have hcs : sep ∉ cs := fun hq => h (List.mem_cons_of_mem _ hq)
    simp [splitCharList, hc, ih hcs]

lemma splitCharList_append (sep : Char) (a b : List Char) (h : sep ∉ a) :
    splitCharList sep (a ++ sep :: b) = a :: splitCharList sep b := by
  induction a with
  | nil => simp [splitCharList]
  | cons c cs ih =>
    have hc : ¬(c = sep) := by
      intro hq
      exact h (by rw [hq]; exact List.mem_cons_self sep cs)
    have hcs : sep ∉ cs := fun hq => h (List.mem_cons_of_mem _ hq)
    simp [splitCharList, hc, ih hcs]

lemma percentChars_length (bs : List Nat) : (percentChars bs).length = 3 * bs.length := by
  induction bs with
  | nil => rfl
  | cons b bs ih =>
    simp [percentChars, ih]
    omega

lemma utf8Bytes_ne_nil (c : Char) : utf8Bytes c ≠ [] := by
  unfold utf8Bytes
  dsimp only
  split_ifs <;> simp

lemma one_le_encCharL_length (c : Char) : 1 ≤ (encCharL c).length := by
  unfold encCharL
  split
  · simp
  · rw [percentChars_length]
    have h1 : 0 < (utf8Bytes c).length := List.length_pos.mpr (utf8Bytes_ne_nil c)
    omega

lemma three_le_encCharL_length (c : Char) (h : isUriUnreserved c = false) :
    3 ≤ (encCharL c).length := by
  unfold encCharL
  rw [h]
  simp [percentChars_length]
  have h1 : 0 < (utf8Bytes c).length := List.length_pos.mpr (utf8Bytes_ne_nil c)
  omega

lemma encodeDataL_length_ge (l : List Char) : l.length ≤ (encodeDataL l).length := by
  induction l with
  | nil => simp [encodeDataL]
  | cons c cs ih =>
    simp [encodeDataL, List.length_append]
    have := one_le_encCharL_length c
    omega

lemma encodeDataL_length_gt (l : List Char) (c : Char) (h : isUriUnreserved c = false) :
    c ∈ l → l.length < (encodeDataL l).length := by
  induction l with
  | nil => intro hc; cases hc
  | cons d ds ih =>
    intro hc
    simp [encodeDataL, List.length_append]
    rcases List.mem_cons.mp hc with h1 | h1
    · subst h1
      have h3 := three_le_encCharL_length c h
      have h4 := encodeDataL_length_ge ds
      omega
    · have h2 := ih h1
      have h5 := one_le_encCharL_length d
      omega

lemma encode_fix_unreserved (v : String) (h : encodeURIComponent v = v) :
    ∀ c ∈ v.data, isUriUnreserved c = true := by
  intro c hc
  cases hu : isUriUnreserved c
  · have hdata : encodeDataL v.data = v.data := by
      have h2 := congrArg String.data h
      simpa [encodeURIComponent] using h2
    have hlt := encodeDataL_length_gt v.data c hu hc
    rw [hdata] at hlt
    omega
  · rfl

lemma unreserved_not_ws (c : Char) (h : isUriUnreserved c = true) :
    isJsWhitespace c = false := by
  cases hb : isJsWhitespace c
  · rfl
  · unfold isUriUnreserved at h
    unfold isJsWhitespace at hb
    simp only [Bool.or_eq_true, Bool.and_eq_true, decide_eq_true_eq] at h hb
    omega

lemma dropWhile_eq_self_of (p : Char → Bool) (l : List Char) (h : ∀ c ∈ l, p c = false) :
    l.dropWhile p = l := by
  cases l with
  | nil => rfl
  | cons c cs => simp [List.dropWhile, h c (List.mem_cons_self c cs)]

lemma jsTrim_eq_self (s : String) (h : ∀ c ∈ s.data, isJsWhitespace c = false) :
    jsTrim s = s := by
  unfold jsTrim
  rw [dropWhile_eq_self_of _ _ h]
  rw [dropWhile_eq_self_of _ _ (by intro c hc; exact h c (List.mem_reverse.mp hc))]
  rw [List.reverse_reverse]

lemma jsJoin_cons_cons (sep x y : String) (l : List String) :
    jsJoin sep (x :: y :: l) = x ++ sep ++ jsJoin sep (y :: l) := rfl

/-- Claim C9: for every visitor-id value containing no ';' or '=' and left
unchanged by encodeURIComponent (in particular every UUID from
crypto.randomUUID), parsing the serialized session cookie with
getCookieValue for chatkit_session_id returns exactly that value. -/
theorem serializeSessionCookie_roundtrip :
    ∀ (v : String) (prod : Bool),
    ';' ∉ v.data → '=' ∉ v.data → encodeURIComponent v = v →
    Route.getCookieValue (some (Route.serializeSessionCookie v prod))
      Route.SESSION_COOKIE_NAME = some v := by
  intro v prod h1 h2 h3
  have hnws : ∀ c ∈ v.data, isJsWhitespace c = false :=
    fun c hc => unreserved_not_ws c (encode_fix_unreserved v h3 c hc)
  have e1 : ("=" : String).data = ['='] := rfl
  have e2 : ("; " : String).data = [';', ' '] := rfl
  have hA : (';' : Char) ∉ "chatkit_session_id".data ++ '=' :: v.data := by
    intro hmem
    rcases List.mem_append.mp hmem with hmem1 | hmem1
    · exact absurd hmem1 (by decide)
    · rcases List.mem_cons.mp hmem1 with hmem2 | hmem2
      · exact absurd hmem2 (by decide)
      · exact h1 hmem2
  have hSdata0 : (Route.serializeSessionCookie v prod).data =
      ("chatkit_session_id".data ++ '=' :: v.data) ++ ';' ::
        (' ' :: (jsJoin "; " ("Path=/" ::
          (["Max-Age=" ++ toString Route.SESSION_COOKIE_MAX_AGE, "HttpOnly", "SameSite=Lax"] ++
            (if prod then ["Secure"] else [])))).data) := by
    simp only [Route.serializeSessionCookie, Route.SESSION_COOKIE_NAME, List.cons_append]
    rw [jsJoin_cons_cons]
    simp [stringData_append, h3, e1, e2, List.append_assoc]
  obtain ⟨B, hSdata⟩ : ∃ B, (Route.serializeSessionCookie v prod).data =
      ("chatkit_session_id".data ++ '=' :: v.data) ++ ';' :: B := ⟨_, hSdata0⟩
  have hsplit := splitCharList_append ';' ("chatkit_session_id".data ++ '=' :: v.data) B hA
  have hSne : Route.serializeSessionCookie v prod ≠ "" := by
    intro h0
    rw [h0] at hSdata
    simp at hSdata
  have hpart : jsSplit (String.mk ("chatkit_session_id".data ++ '=' :: v.data)) '=' =
      ["chatkit_session_id", v] := by
    unfold jsSplit
    show (splitCharList '=' ("chatkit_session_id".data ++ '=' :: v.data)).map String.mk = _
    rw [splitCharList_append '=' _ _ (by decide), splitCharList_of_not_mem '=' v.data h2]
    simp [stringMk_data]
  show (if Route.serializeSessionCookie v prod = "" then none
    else Route.cookieScan Route.SESSION_COOKIE_NAME
      (jsSplit (Route.serializeSessionCookie v prod) ';')) = some v
  rw [if_neg hSne]
  unfold jsSplit
  rw [hSdata, hsplit]
  simp only [List.map_cons]
  rw [Route.cookieScan]
  rw [hpart]
  simp only [List.isEmpty]
  have hname : jsTrim "chatkit_session_id" = Route.SESSION_COOKIE_NAME := by decide
  simp [hname, jsJoin]
  exact jsTrim_eq_self v hnws

/-- Witness for C9: the round trip on a concrete UUID-shaped value. -/
theorem serializeSessionCookie_roundtrip_witness :
    Route.getCookieValue
      (some (Route.serializeSessionCookie "11111111-2222-4333-8444-555555555555" false))
      Route.SESSION_COOKIE_NAME = some "11111111-2222-4333-8444-555555555555" :=
  serializeSessionCookie_roundtrip "11111111-2222-4333-8444-555555555555" false
    (by decide) (by decide) (by decide)
